import Mathlib

/-!
Shallow embedding of the vacancy-backend booking service (src/app.js).

Calendar dates are modelled as integer day numbers (days since the Unix
epoch): the source parses a date string `s` as `new Date(s + "T00:00:00.000Z")`,
i.e. UTC midnight, so every date value is an exact multiple of 86400000
milliseconds and integer arithmetic is exact (JavaScript number arithmetic on
these magnitudes stays below 2^53 and is therefore exact as well).

The database is modelled as lists of rows.  Handlers are pure functions that
take the database state and return a result together with the (possibly
updated) database state; the checkout handler additionally returns the trace
of reservation-table and transaction commands it issued, in order, so that
statements about where the conflict check sits relative to BEGIN/INSERT can
be expressed.
-/

namespace VacancyBackend

/-- A calendar date, as a day number (days since 1970-01-01, UTC). -/
abbrev Date := Int

/-- Milliseconds per day, the divisor in `nightsBetween` (86400000 in app.js). -/
def msPerDay : Int := 86400000

/-- Models `toDate`: the millisecond timestamp of UTC midnight of a date. -/
def toDate (d : Date) : Int := d * msPerDay

/-- Ceiling division on integers (for a positive divisor), the exact meaning of
`Math.ceil(x / y)` on exactly-represented operands. -/
def ceilDivInt (a b : Int) : Int := -((-a) / b)

/-- Models `nightsBetween(a, b) = Math.ceil((toDate(b) - toDate(a)) / 86400000)`. -/
def nightsBetween (a b : Date) : Int := ceilDivInt (toDate b - toDate a) msPerDay

/-- A row of the `properties` table.  `currency` and `price_per_night_cents`
are nullable in the schema; `none` models SQL NULL (a falsy value in the
JavaScript `||` defaulting). -/
structure Property where
  id : Nat
  slug : String
  name : String
  currency : Option String
  price_per_night_cents : Option Int
deriving DecidableEq, Repr

/-- A row of the `reservations` table. -/
structure Reservation where
  id : Nat
  property_id : Nat
  checkin : Date
  checkout : Date
  guests : Int
  email : String
  status : String
deriving DecidableEq, Repr

/-- The persistent store: the two tables plus the generator of reservation
identifiers (`returning id` of the insert). -/
structure DB where
  properties : List Property
  reservations : List Reservation
  nextId : Nat
deriving DecidableEq, Repr

/-- Models `status in ('pending','paid')`. -/
def isActive (s : String) : Bool := s == "pending" || s == "paid"

/-- Models the SQL overlap test `not (checkout <= $2 or checkin >= $3)` for a
stored range [rci, rco) against a query range [f, t). -/
def overlapsRange (rci rco f t : Date) : Bool :=
  !(decide (rco ≤ f) || decide (rci ≥ t))

/-- The row predicate of both the availability query and the conflict query:
same property, active status, overlapping range. -/
def conflictPred (pid : Nat) (f t : Date) (r : Reservation) : Bool :=
  r.property_id == pid && isActive r.status && overlapsRange r.checkin r.checkout f t

/-- Models `getProperty({id, slug})`: `null` when both keys are absent/falsy,
otherwise a lookup by id when `id` is truthy, else by slug.  `none` models an
absent (or falsy) request parameter. -/
def getProperty (db : DB) (id : Option Nat) (slug : Option String) : Option Property :=
  if id.isNone && slug.isNone then none
  else
    match id with
    | some i => db.properties.find? (fun p => p.id == i)
    | none =>
      match slug with
      | some s => db.properties.find? (fun p => p.slug == s)
      | none => none

/-- One element of the `occupied` array returned by GET /availability:
the projection `id, checkin, checkout, status` of a reservation row. -/
structure OccupiedRow where
  id : Nat
  checkin : Date
  checkout : Date
  status : String
deriving DecidableEq, Repr

/-- The projection applied by the availability SELECT and the response map. -/
def projRow (r : Reservation) : OccupiedRow :=
  { id := r.id, checkin := r.checkin, checkout := r.checkout, status := r.status }

/-- The comparison of `order by checkin asc`. -/
def rowLE (a b : OccupiedRow) : Prop := a.checkin ≤ b.checkin

instance : DecidableRel rowLE := fun a b => Int.decLe a.checkin b.checkin

instance : IsTotal OccupiedRow rowLE := ⟨fun a b => Int.le_total a.checkin b.checkin⟩

instance : IsTrans OccupiedRow rowLE := ⟨fun _ _ _ h h' => Int.le_trans h h'⟩

/-- Result of GET /availability (status 400 / 404 / 200). -/
inductive AvailabilityResult
  | invalidInput (msg : String)
  | notFound
  | ok (occupied : List OccupiedRow)
deriving DecidableEq, Repr

/-- Models the GET /availability handler.  Returns the response and the
database state after the request (the handler only SELECTs). -/
def availability (db : DB) (property_id : Option Nat) (property_slug : Option String)
    (f t : Option Date) : AvailabilityResult × DB :=
  match f, t with
  | some f, some t =>
    match getProperty db property_id property_slug with
    | none => (.notFound, db)
    | some prop =>
      let rows := (db.reservations.filter (conflictPred prop.id f t)).map projRow
      (.ok (List.insertionSort rowLE rows), db)
  | _, _ => (.invalidInput "from/to mancanti", db)

/-- Left-pads a two-digit fraction, as `toFixed(2)` renders the cents part. -/
def pad2 (n : Int) : String :=
  if n < 10 then "0" ++ toString n else toString n

/-- Models `(amountCents / 100).toFixed(2) + " " + currency` for a nonnegative
integer amount of cents (exact below 2^53, where the double division and
rounding reproduce exact decimal rendering). -/
def formatCents (c : Int) (cur : String) : String :=
  toString (c / 100) ++ "." ++ pad2 (c % 100) ++ " " ++ cur

/-- The successful body of POST /quote. -/
structure QuoteOk where
  nights : Int
  currency : String
  price_per_night_cents : Int
  total_cents : Int
  total_formatted : String
deriving DecidableEq, Repr

/-- Result of POST /quote (status 400 / 404 / 200). -/
inductive QuoteResult
  | invalidInput (msg : String)
  | notFound
  | ok (q : QuoteOk)
deriving DecidableEq, Repr

/-- Request body of POST /quote; `none` models an absent (or falsy) field. -/
structure QuoteReq where
  property_slug : Option String
  property_id : Option Nat
  checkin : Option Date
  checkout : Option Date
deriving DecidableEq, Repr

/-- Models the POST /quote handler. -/
def quote (db : DB) (req : QuoteReq) : QuoteResult × DB :=
  match req.checkin, req.checkout with
  | some ci, some co =>
    if toDate co ≤ toDate ci then (.invalidInput "checkout deve essere > checkin", db)
    else
      match getProperty db req.property_id req.property_slug with
      | none => (.notFound, db)
      | some prop =>
        let nights := nightsBetween ci co
        let amountCents := nights * (prop.price_per_night_cents.getD 0)
        let cur := prop.currency.getD "EUR"
        (.ok { nights := nights, currency := cur,
               price_per_night_cents := prop.price_per_night_cents.getD 0,
               total_cents := amountCents,
               total_formatted := formatCents amountCents cur }, db)
  | _, _ => (.invalidInput "checkin/checkout mancanti", db)

/-- Models `String.prototype.toLowerCase` on ASCII currency codes, by a
structural map over the characters (kernel-reducible). -/
def toLowerStr (s : String) : String := ⟨s.data.map Char.toLower⟩

/-- Models `String.prototype.toUpperCase` on ASCII currency codes, by a
structural map over the characters (kernel-reducible). -/
def toUpperStr (s : String) : String := ⟨s.data.map Char.toUpper⟩

/-- Request body of POST /checkout; `none` models an absent (or falsy) field. -/
structure CheckoutReq where
  property_slug : Option String
  property_id : Option Nat
  checkin : Option Date
  checkout : Option Date
  email : Option String
  guests : Int
deriving DecidableEq, Repr

/-- Reservation-table and transaction commands issued by the checkout handler,
in program order.  `selectConflicts` is the conflict re-check query. -/
inductive DbEvent
  | selectConflicts
  | txBegin
  | insertReservation
  | stripeCreate
  | txCommit
  | txRollback
deriving DecidableEq, Repr

/-- Outcome of the `stripe.checkout.sessions.create` call: a session with a
hosted URL, or a raised error (validation or transient failure alike). -/
inductive StripeOutcome
  | ok (url : String)
  | error (msg : String)
deriving DecidableEq, Repr

/-- Result of POST /checkout (status 400 / 404 / 409 / 201 / 500). -/
inductive CheckoutResult
  | invalidInput (msg : String)
  | notFound
  | conflict
  | created (reservation_id : Nat) (checkout_url : String)
      (amount_cents : Int) (currency : String)
  | serverError (msg : String)
deriving DecidableEq, Repr

/-- Models the POST /checkout handler, following app.js line by line:
email check, date checks, property lookup, conflict query (on the pooled
client, before BEGIN), then BEGIN, INSERT, the Stripe call, and COMMIT on
success or ROLLBACK (in the catch block) when the Stripe call throws.
Returns the response, the database state visible after the request
(i.e. after COMMIT or ROLLBACK), and the issued command trace. -/
def checkout (db : DB) (req : CheckoutReq) (stripe : StripeOutcome) :
    CheckoutResult × DB × List DbEvent :=
  match req.email with
  | none => (.invalidInput "email mancante", db, [])
  | some e =>
    match req.checkin, req.checkout with
    | some ci, some co =>
      if toDate co ≤ toDate ci then (.invalidInput "checkout deve essere > checkin", db, [])
      else
        match getProperty db req.property_id req.property_slug with
        | none => (.notFound, db, [])
        | some prop =>
          if db.reservations.any (conflictPred prop.id ci co) then
            (.conflict, db, [.selectConflicts])
          else
            let nights := nightsBetween ci co
            let amountCents := nights * (prop.price_per_night_cents.getD 0)
            let cur := toLowerStr (prop.currency.getD "EUR")
            let rid := db.nextId
            let newRes : Reservation :=
              { id := rid, property_id := prop.id, checkin := ci, checkout := co,
                guests := req.guests, email := e, status := "pending" }
            match stripe with
            | .ok url =>
              (.created rid url amountCents (toUpperStr cur),
               { db with reservations := db.reservations ++ [newRes], nextId := db.nextId + 1 },
               [.selectConflicts, .txBegin, .insertReservation, .stripeCreate, .txCommit])
            | .error msg =>
              (.serverError msg, db,
               [.selectConflicts, .txBegin, .insertReservation, .stripeCreate, .txRollback])
    | _, _ => (.invalidInput "checkin/checkout mancanti", db, [])

/-- Scans a command trace and decides whether every conflict query occurs
after a transaction has been started (the accumulator records whether a
`txBegin` has been seen). -/
def conflictsInsideTx : List DbEvent → Bool → Bool
  | [], _ => true
  | DbEvent.selectConflicts :: rest, seen => seen && conflictsInsideTx rest seen
  | DbEvent.txBegin :: rest, _ => conflictsInsideTx rest true
  | _ :: rest, seen => conflictsInsideTx rest seen

/-!
Interleaving model for concurrent checkout attempts.

Each booking attempt executes the checkout handler on its own connection.
Its two steps that touch the shared store are (1) the conflict query, which
in app.js runs on the pooled client before `BEGIN` and therefore reads the
committed state, and (2) the INSERT..COMMIT section, whose inserted row
becomes visible to other connections only at COMMIT (read-committed
isolation); it is modelled as one atomic publication step.  A schedule is
the list of attempt indices in the order their steps hit the store.
-/

/-- The data of one concurrent booking attempt (validated request fields). -/
structure BookingAttempt where
  ci : Date
  co : Date
  email : String
deriving DecidableEq, Repr

/-- Where a concurrent attempt stands: before its conflict check, after a
passed check (insert not yet committed), rejected with Conflict, or
committed. -/
inductive AttemptPhase
  | ready
  | passed
  | rejected
  | committed
deriving DecidableEq, Repr

/-- Shared store plus the phase of every attempt. -/
structure RaceState where
  db : DB
  phases : List AttemptPhase
deriving DecidableEq, Repr

/-- One step of attempt `i` against the shared store: a `ready` attempt runs
the conflict query of the checkout handler on the committed state; a `passed`
attempt commits its INSERT of a pending reservation. -/
def raceStep (pid : Nat) (attempts : List BookingAttempt) (s : RaceState) (i : Nat) :
    RaceState :=
  match attempts[i]?, s.phases[i]? with
  | some a, some AttemptPhase.ready =>
    if s.db.reservations.any (conflictPred pid a.ci a.co) then
      { s with phases := s.phases.set i AttemptPhase.rejected }
    else
      { s with phases := s.phases.set i AttemptPhase.passed }
  | some a, some AttemptPhase.passed =>
    { db := { s.db with
        reservations := s.db.reservations ++
          [{ id := s.db.nextId, property_id := pid, checkin := a.ci, checkout := a.co,
             guests := 1, email := a.email, status := "pending" }],
        nextId := s.db.nextId + 1 },
      phases := s.phases.set i AttemptPhase.committed }
  | _, _ => s

/-- Runs a schedule of attempt steps against the shared store. -/
def runRace (pid : Nat) (attempts : List BookingAttempt) (sched : List Nat)
    (s : RaceState) : RaceState :=
  sched.foldl (raceStep pid attempts) s

/-- Decides whether the store violates the core invariant: two distinct
reservations of the same property, both with status pending or paid, whose
half-open ranges overlap. -/
def doubleBooked (db : DB) : Bool :=
  db.reservations.any (fun r =>
    db.reservations.any (fun r2 =>
      r.id != r2.id && r.property_id == r2.property_id &&
      isActive r.status && isActive r2.status &&
      overlapsRange r.checkin r.checkout r2.checkin r2.checkout))

/-!
Concrete fixtures.  Day numbers: 2024-06-01 = 19875, 2024-06-03 = 19877,
2024-06-04 = 19878, 2024-06-05 = 19879, 2024-06-06 = 19880.
-/

/-- The property of the worked example in the spec: slug "villa-x",
price_per_night_cents 10000, currency EUR. -/
def villaX : Property :=
  { id := 7, slug := "villa-x", name := "Villa X",
    currency := some "EUR", price_per_night_cents := some 10000 }

/-- A store holding villa-x and no reservations. -/
def emptyDB : DB := { properties := [villaX], reservations := [], nextId := 1 }

/-- A pending reservation of villa-x for 2024-06-01 → 2024-06-04. -/
def resJune1to4 : Reservation :=
  { id := 1, property_id := 7, checkin := 19875, checkout := 19878,
    guests := 2, email := "first@example.com", status := "pending" }

/-- A store holding villa-x and the 2024-06-01 → 2024-06-04 pending
reservation. -/
def bookedDB : DB := { properties := [villaX], reservations := [resJune1to4], nextId := 2 }

/-- A checkout request for villa-x, 2024-06-03 → 2024-06-05, overlapping
`resJune1to4`. -/
def reqJune3to5 : CheckoutReq :=
  { property_slug := some "villa-x", property_id := none,
    checkin := some 19877, checkout := some 19879,
    email := some "second@example.com", guests := 1 }

/-- A checkout request for villa-x, 2024-06-01 → 2024-06-04. -/
def reqJune1to4 : CheckoutReq :=
  { property_slug := some "villa-x", property_id := none,
    checkin := some 19875, checkout := some 19878,
    email := some "first@example.com", guests := 2 }

/-- The quote request of the worked example: villa-x,
2024-06-01 → 2024-06-04. -/
def quoteReqJune1to4 : QuoteReq :=
  { property_slug := some "villa-x", property_id := none,
    checkin := some 19875, checkout := some 19878 }

/-- The expected quote of the worked example: 3 nights, 30000 cents,
"300.00 EUR". -/
def quoteOkExample : QuoteOk :=
  { nights := 3, currency := "EUR", price_per_night_cents := 10000,
    total_cents := 30000, total_formatted := "300.00 EUR" }

/-- A property with a zero nightly price and a NULL currency. -/
def freeHut : Property :=
  { id := 9, slug := "free-hut", name := "Free Hut",
    currency := none, price_per_night_cents := some 0 }

/-- A store holding only `freeHut`. -/
def freeDB : DB := { properties := [freeHut], reservations := [], nextId := 1 }

/-- A quote request against `freeHut`. -/
def freeQuoteReq : QuoteReq :=
  { property_slug := some "free-hut", property_id := none,
    checkin := some 19875, checkout := some 19878 }

/-- A checkout request against `freeHut`. -/
def freeCheckoutReq : CheckoutReq :=
  { property_slug := some "free-hut", property_id := none,
    checkin := some 19875, checkout := some 19878,
    email := some "guest@example.com", guests := 1 }

/-- A quote request that both misses its checkin date and names an unknown
property. -/
def ghostQuoteReq : QuoteReq :=
  { property_slug := some "ghost", property_id := none,
    checkin := none, checkout := some 19878 }

/-- A checkout request that both has checkin = checkout (2024-06-05 twice)
and names an unknown property. -/
def ghostCheckoutReq : CheckoutReq :=
  { property_slug := some "ghost", property_id := none,
    checkin := some 19879, checkout := some 19879,
    email := some "guest@example.com", guests := 1 }

/-- A quote request for villa-x with checkin = checkout = 2024-06-05. -/
def sameDayQuoteReq : QuoteReq :=
  { property_slug := some "villa-x", property_id := none,
    checkin := some 19879, checkout := some 19879 }

/-- A checkout request for villa-x with checkin = checkout = 2024-06-05. -/
def sameDayCheckoutReq : CheckoutReq :=
  { property_slug := some "villa-x", property_id := none,
    checkin := some 19879, checkout := some 19879,
    email := some "guest@example.com", guests := 1 }

/-- Two concurrent booking attempts for villa-x with overlapping ranges:
2024-06-01 → 2024-06-04 and 2024-06-03 → 2024-06-06. -/
def raceAttempts : List BookingAttempt :=
  [{ ci := 19875, co := 19878, email := "first@example.com" },
   { ci := 19877, co := 19880, email := "second@example.com" }]

/-- Both attempts of `raceAttempts` before their conflict checks, against the
store holding villa-x and no reservations. -/
def raceStart : RaceState := { db := emptyDB, phases := [AttemptPhase.ready, AttemptPhase.ready] }

/-- Scans a command trace and decides that no conflict query is issued once a
transaction has been started, i.e. every conflict query precedes `txBegin`. -/
def conflictsBeforeBegin : List DbEvent → Bool
  | [] => true
  | DbEvent.txBegin :: rest => !(rest.contains DbEvent.selectConflicts) && conflictsBeforeBegin rest
  | _ :: rest => conflictsBeforeBegin rest

/-- The boolean conflict predicate of the handler coincides with the overlap
condition stated in the spec: same property, status pending or paid, and
NOT (checkout ≤ from OR checkin ≥ to). -/
theorem conflictPred_eq_true (pid : Nat) (f t : Date) (r : Reservation) :
    conflictPred pid f t r = true ↔
      r.property_id = pid ∧ isActive r.status = true ∧ ¬(r.checkout ≤ f ∨ r.checkin ≥ t) := by
  simp [conflictPred, overlapsRange, and_assoc]

/-- Date values sit at UTC midnight, so the millisecond difference is an exact
multiple of 86400000 and the ceiling division returns exactly the number of
calendar days between the two dates. -/
theorem nightsBetween_eq (a b : Date) : nightsBetween a b = b - a := by
  unfold nightsBetween ceilDivInt toDate msPerDay
  rw [show -(b * 86400000 - a * 86400000) = (a - b) * 86400000 by ring]
  rw [Int.mul_ediv_cancel _ (by norm_num)]
  ring

/-- Claim C1, as stated, is false of the code: on a request that conflicts
with an existing reservation, the checkout handler issues the conflict query
as its only command — no transaction has been started when the query runs
(`conflictsInsideTx` rejects the trace), it answers Conflict, and neither a
BEGIN nor a ROLLBACK ever occurs, so no transaction is aborted. -/
theorem conflict_check_runs_outside_transaction :
    checkout bookedDB reqJune3to5 (StripeOutcome.ok "https://pay.example") =
      (CheckoutResult.conflict, bookedDB, [DbEvent.selectConflicts]) ∧
    conflictsInsideTx [DbEvent.selectConflicts] false = false ∧
    DbEvent.txBegin ∉ [DbEvent.selectConflicts] ∧
    DbEvent.txRollback ∉ [DbEvent.selectConflicts] := by decide

/-- Claim C1 (amended): in createBooking (POST /checkout) the conflict
re-check for the property and date range is executed on the dedicated client
connection before the transaction starts — in every execution each conflict
query precedes `txBegin` — and if any conflict exists the operation fails
with Conflict without starting a transaction and without touching the
reservations table: the store is unchanged and the trace is the conflict
query alone. -/
theorem conflict_check_precedes_transaction (db : DB) (req : CheckoutReq)
    (st : StripeOutcome) :
    conflictsBeforeBegin (checkout db req st).2.2 = true ∧
    ((checkout db req st).1 = CheckoutResult.conflict →
      (checkout db req st).2.1 = db ∧ (checkout db req st).2.2 = [DbEvent.selectConflicts]) := by
  unfold checkout
  split
  · exact ⟨rfl, by intro h; exact absurd h (by simp)⟩
  · split
    · split
      · exact ⟨rfl, by intro h; exact absurd h (by simp)⟩
      · split
        · exact ⟨rfl, by intro h; exact absurd h (by simp)⟩
        · split
          · exact ⟨rfl, fun _ => ⟨rfl, rfl⟩⟩
          · split
            · exact ⟨rfl, by intro h; exact absurd h (by simp)⟩
            · exact ⟨rfl, by intro h; exact absurd h (by simp)⟩
    · exact ⟨rfl, by intro h; exact absurd h (by simp)⟩

/-- Claim C1 witness: on the conflicting 2024-06-03 → 2024-06-05 request the
store is unchanged and the trace is the conflict query alone. -/
theorem conflict_check_precedes_transaction_witness :
    (checkout bookedDB reqJune3to5 (StripeOutcome.ok "u")).2.1 = bookedDB ∧
    (checkout bookedDB reqJune3to5 (StripeOutcome.ok "u")).2.2 = [DbEvent.selectConflicts] :=
  (conflict_check_precedes_transaction bookedDB reqJune3to5 (StripeOutcome.ok "u")).2 (by decide)

/-- Claim C2: whenever the payment-session call fails, the store after the
attempt equals the store before it — the reservation inserted during the
attempt is not retained; if the insert did run, the trace ends in a rollback
and the attempt surfaces the underlying cause as a server error; and every
availability query reads the same answer as before the attempt. -/
theorem payment_failure_leaves_db_unchanged (db : DB) (req : CheckoutReq) (msg : String) :
    (checkout db req (StripeOutcome.error msg)).2.1 = db ∧
    (DbEvent.insertReservation ∈ (checkout db req (StripeOutcome.error msg)).2.2 →
      (checkout db req (StripeOutcome.error msg)).1 = CheckoutResult.serverError msg ∧
      DbEvent.txRollback ∈ (checkout db req (StripeOutcome.error msg)).2.2) ∧
    (∀ pid slug f t, availability (checkout db req (StripeOutcome.error msg)).2.1 pid slug f t =
      availability db pid slug f t) := by
  unfold checkout
  split
  · exact ⟨rfl, by intro h; exact absurd h (by simp), fun _ _ _ _ => rfl⟩
  · split
    · split
      · exact ⟨rfl, by intro h; exact absurd h (by simp), fun _ _ _ _ => rfl⟩
      · split
        · exact ⟨rfl, by intro h; exact absurd h (by simp), fun _ _ _ _ => rfl⟩
        · split
          · exact ⟨rfl, by intro h; exact absurd h (by simp), fun _ _ _ _ => rfl⟩
          · exact ⟨rfl, fun _ => ⟨rfl, by simp⟩, fun _ _ _ _ => rfl⟩
    · exact ⟨rfl, by intro h; exact absurd h (by simp), fun _ _ _ _ => rfl⟩

/-- Claim C2 witness: an otherwise-valid attempt whose payment call raises
reaches the insert and ends in a rollback with a 500-class error. -/
theorem payment_failure_leaves_db_unchanged_witness :
    (checkout emptyDB reqJune1to4 (StripeOutcome.error "card_error")).1 =
      CheckoutResult.serverError "card_error" ∧
    DbEvent.txRollback ∈ (checkout emptyDB reqJune1to4 (StripeOutcome.error "card_error")).2.2 :=
  (payment_failure_leaves_db_unchanged emptyDB reqJune1to4 "card_error").2.1 (by decide)

/-- Claim C3: for a validated checkout request, if some reservation of the
same property with status pending or paid overlaps the half-open range —
overlap being NOT (a2 ≤ b1 OR a1 ≥ b2) — the attempt fails with Conflict and
the store is unchanged; if no such reservation exists the attempt passes the
conflict check: it does not answer Conflict and proceeds to the insert. -/
theorem overlap_conflict_check (db : DB) (req : CheckoutReq) (ci co : Date) (e : String)
    (prop : Property) (st : StripeOutcome)
    (he : req.email = some e) (hci : req.checkin = some ci) (hco : req.checkout = some co)
    (hlt : toDate ci < toDate co)
    (hp : getProperty db req.property_id req.property_slug = some prop) :
    ((∃ r ∈ db.reservations, r.property_id = prop.id ∧ isActive r.status = true ∧
        ¬(r.checkout ≤ ci ∨ r.checkin ≥ co)) →
      (checkout db req st).1 = CheckoutResult.conflict ∧ (checkout db req st).2.1 = db) ∧
    ((∀ r ∈ db.reservations, ¬(r.property_id = prop.id ∧ isActive r.status = true ∧
        ¬(r.checkout ≤ ci ∨ r.checkin ≥ co))) →
      (checkout db req st).1 ≠ CheckoutResult.conflict ∧
      DbEvent.insertReservation ∈ (checkout db req st).2.2) := by
  have hany : db.reservations.any (conflictPred prop.id ci co) = true ↔
      ∃ r ∈ db.reservations, r.property_id = prop.id ∧ isActive r.status = true ∧
        ¬(r.checkout ≤ ci ∨ r.checkin ≥ co) := by
    rw [List.any_eq_true]
    constructor
    · rintro ⟨r, hr, hpred⟩
      exact ⟨r, hr, (conflictPred_eq_true prop.id ci co r).mp hpred⟩
    · rintro ⟨r, hr, hpred⟩
      exact ⟨r, hr, (conflictPred_eq_true prop.id ci co r).mpr hpred⟩
  unfold checkout
  rw [he, hci, hco]
  dsimp only
  rw [if_neg (not_le.mpr hlt), hp]
  dsimp only
  constructor
  · intro hex
    rw [if_pos (hany.mpr hex)]
    exact ⟨rfl, rfl⟩
  · intro hall
    have hfalse : db.reservations.any (conflictPred prop.id ci co) = false := by
      rw [← Bool.not_eq_true, hany]
      push_neg
      intro r hr h1 h2
      have := hall r hr
      tauto
    rw [if_neg (by simp [hfalse])]
    cases st with
    | ok url => exact ⟨by simp, by simp⟩
    | error msg => exact ⟨by simp, by simp⟩

/-- Claim C3 witness: the 2024-06-03 → 2024-06-05 request conflicts with the
stored 2024-06-01 → 2024-06-04 reservation and fails with Conflict leaving
the store unchanged, while the same booking against an empty store passes the
conflict check and reaches the insert. -/
theorem overlap_conflict_check_witness :
    ((checkout bookedDB reqJune3to5 (StripeOutcome.ok "u")).1 = CheckoutResult.conflict ∧
     (checkout bookedDB reqJune3to5 (StripeOutcome.ok "u")).2.1 = bookedDB) ∧
    ((checkout emptyDB reqJune1to4 (StripeOutcome.ok "u")).1 ≠ CheckoutResult.conflict ∧
     DbEvent.insertReservation ∈ (checkout emptyDB reqJune1to4 (StripeOutcome.ok "u")).2.2) :=
  ⟨(overlap_conflict_check bookedDB reqJune3to5 19877 19879 "second@example.com" villaX
      (StripeOutcome.ok "u") rfl rfl rfl (by decide) (by decide)).1
    ⟨resJune1to4, by decide, by decide, by decide, by decide⟩,
   (overlap_conflict_check emptyDB reqJune1to4 19875 19878 "first@example.com" villaX
      (StripeOutcome.ok "u") rfl rfl rfl (by decide) (by decide)).2 (by decide)⟩

/-- Claim C4 is violated by the code: under the interleaving in which both
concurrent attempts run their conflict check (which app.js executes before
BEGIN, against the committed state) before either commits its insert, both
attempts succeed and two pending reservations with overlapping ranges coexist
for the same property; under the sequential schedule the model agrees with
the claim — one success, one Conflict, no double booking. -/
theorem concurrent_attempts_double_booking :
    (runRace 7 raceAttempts [0, 1, 0, 1] raceStart).phases =
      [AttemptPhase.committed, AttemptPhase.committed] ∧
    doubleBooked (runRace 7 raceAttempts [0, 1, 0, 1] raceStart).db = true ∧
    (runRace 7 raceAttempts [0, 0, 1, 1] raceStart).phases =
      [AttemptPhase.committed, AttemptPhase.rejected] ∧
    doubleBooked (runRace 7 raceAttempts [0, 0, 1, 1] raceStart).db = false := by decide

/-- Claim C5: for a validated quote the computed nights equal the ceiling of
the day difference, which is exactly the number of calendar days between the
dates, and the total equals nights times the nightly price, computed in
integer minor units; on the worked example (10000 cents/night,
2024-06-01 → 2024-06-04) this yields 3 nights, 30000 cents, "300.00 EUR". -/
theorem pricing_nights_and_total (db : DB) (req : QuoteReq) (ci co : Date) (prop : Property)
    (hci : req.checkin = some ci) (hco : req.checkout = some co)
    (hlt : toDate ci < toDate co)
    (hp : getProperty db req.property_id req.property_slug = some prop) :
    (∃ q, (quote db req).1 = QuoteResult.ok q ∧
      q.nights = ceilDivInt (toDate co - toDate ci) msPerDay ∧
      q.nights = co - ci ∧
      q.total_cents = q.nights * prop.price_per_night_cents.getD 0) ∧
    (quote emptyDB quoteReqJune1to4).1 = QuoteResult.ok quoteOkExample := by
  constructor
  · unfold quote
    rw [hci, hco]
    dsimp only
    rw [if_neg (not_le.mpr hlt), hp]
    dsimp only
    exact ⟨_, rfl, rfl, nightsBetween_eq ci co, rfl⟩
  · decide

/-- Claim C5 witness: the worked example evaluated through the quote
handler. -/
theorem pricing_nights_and_total_witness :
    (∃ q, (quote emptyDB quoteReqJune1to4).1 = QuoteResult.ok q ∧
      q.nights = ceilDivInt (toDate 19878 - toDate 19875) msPerDay ∧
      q.nights = 19878 - 19875 ∧
      q.total_cents = q.nights * villaX.price_per_night_cents.getD 0) ∧
    (quote emptyDB quoteReqJune1to4).1 = QuoteResult.ok quoteOkExample :=
  pricing_nights_and_total emptyDB quoteReqJune1to4 19875 19878 villaX rfl rfl
    (by decide) (by decide)

/-- Claim C6: a quote or checkout request whose checkout date is not strictly
after its checkin date is answered InvalidInput (HTTP 400) for every store
state, the store is untouched, and the checkout handler issues no
reservation-table or transaction command at all — in particular the conflict
check never runs.  A checkout request additionally missing its email is also
answered InvalidInput. -/
theorem invalid_range_rejected_before_db (db : DB) (qreq : QuoteReq) (creq : CheckoutReq)
    (st : StripeOutcome) (ci co ci2 co2 : Date)
    (h1 : qreq.checkin = some ci) (h2 : qreq.checkout = some co) (h3 : toDate co ≤ toDate ci)
    (h4 : creq.checkin = some ci2) (h5 : creq.checkout = some co2)
    (h6 : toDate co2 ≤ toDate ci2) :
    (quote db qreq).1 = QuoteResult.invalidInput "checkout deve essere > checkin" ∧
    (quote db qreq).2 = db ∧
    ((checkout db creq st).1 = CheckoutResult.invalidInput "checkout deve essere > checkin" ∨
      (checkout db creq st).1 = CheckoutResult.invalidInput "email mancante") ∧
    (checkout db creq st).2.1 = db ∧
    (checkout db creq st).2.2 = [] := by
  refine ⟨?_, ?_, ?_, ?_, ?_⟩
  · unfold quote
    rw [h1, h2]
    dsimp only
    rw [if_pos h3]
  · unfold quote
    rw [h1, h2]
    dsimp only
    rw [if_pos h3]
  · unfold checkout
    cases hem : creq.email with
    | none => exact Or.inr rfl
    | some e =>
      rw [h4, h5]
      dsimp only
      rw [if_pos h6]
      exact Or.inl rfl
  · unfold checkout
    cases hem : creq.email with
    | none => rfl
    | some e =>
      rw [h4, h5]
      dsimp only
      rw [if_pos h6]
  · unfold checkout
    cases hem : creq.email with
    | none => rfl
    | some e =>
      rw [h4, h5]
      dsimp only
      rw [if_pos h6]

/-- Claim C6 witness: the 2024-06-05 → 2024-06-05 booking example is turned
away with InvalidInput before touching the reservations table. -/
theorem invalid_range_rejected_before_db_witness :
    (quote emptyDB sameDayQuoteReq).1 =
      QuoteResult.invalidInput "checkout deve essere > checkin" ∧
    (quote emptyDB sameDayQuoteReq).2 = emptyDB ∧
    ((checkout emptyDB sameDayCheckoutReq (StripeOutcome.ok "u")).1 =
        CheckoutResult.invalidInput "checkout deve essere > checkin" ∨
      (checkout emptyDB sameDayCheckoutReq (StripeOutcome.ok "u")).1 =
        CheckoutResult.invalidInput "email mancante") ∧
    (checkout emptyDB sameDayCheckoutReq (StripeOutcome.ok "u")).2.1 = emptyDB ∧
    (checkout emptyDB sameDayCheckoutReq (StripeOutcome.ok "u")).2.2 = [] :=
  invalid_range_rejected_before_db emptyDB sameDayQuoteReq sameDayCheckoutReq
    (StripeOutcome.ok "u") 19879 19879 19879 19879 rfl rfl (by decide) rfl rfl (by decide)

/-- Claim C7: an availability query on a found property answers with exactly
the projections (id, checkin, checkout, status) of the reservations of that
property whose status is pending or paid and whose half-open range overlaps
the query range, sorted by checkin ascending, and it leaves the store
unchanged. -/
theorem availability_occupied_spec (db : DB) (pid : Option Nat) (slug : Option String)
    (f t : Date) (prop : Property)
    (hp : getProperty db pid slug = some prop) :
    ∃ occ, availability db pid slug (some f) (some t) = (AvailabilityResult.ok occ, db) ∧
      (∀ row, row ∈ occ ↔ ∃ r ∈ db.reservations,
          r.property_id = prop.id ∧ isActive r.status = true ∧
          ¬(r.checkout ≤ f ∨ r.checkin ≥ t) ∧ row = projRow r) ∧
      List.Sorted rowLE occ := by
  unfold availability
  rw [hp]
  dsimp only
  refine ⟨_, rfl, ?_, List.sorted_insertionSort rowLE _⟩
  intro row
  rw [List.mem_insertionSort]
  simp only [List.mem_map, List.mem_filter]
  constructor
  · rintro ⟨r, ⟨hr, hpred⟩, hrow⟩
    obtain ⟨ha, hb, hc⟩ := (conflictPred_eq_true prop.id f t r).mp hpred
    exact ⟨r, hr, ha, hb, hc, hrow.symm⟩
  · rintro ⟨r, hr, ha, hb, hc, hrow⟩
    exact ⟨r, ⟨hr, (conflictPred_eq_true prop.id f t r).mpr ⟨ha, hb, hc⟩⟩, hrow.symm⟩

/-- Claim C7 witness: the query on villa-x for 2024-06-02 → 2024-06-06
returns the occupied list characterized by the overlap condition, sorted. -/
theorem availability_occupied_spec_witness :
    ∃ occ, availability bookedDB none (some "villa-x") (some 19876) (some 19880) =
        (AvailabilityResult.ok occ, bookedDB) ∧
      (∀ row, row ∈ occ ↔ ∃ r ∈ bookedDB.reservations,
          r.property_id = villaX.id ∧ isActive r.status = true ∧
          ¬(r.checkout ≤ 19876 ∨ r.checkin ≥ 19880) ∧ row = projRow r) ∧
      List.Sorted rowLE occ :=
  availability_occupied_spec bookedDB none (some "villa-x") 19876 19880 villaX (by decide)

/-- Claim C8: the property lookup returns nothing when neither key is given,
uses the identifier when it is given (also when both keys are given), falls
back to the slug otherwise, returns the first matching row, and an absent
match surfaces as the not-found response (HTTP 404) of the availability
route with the store unchanged — the lookup writes nothing. -/
theorem getProperty_lookup_spec (db : DB) (i : Nat) (s : String) (f t : Date) :
    getProperty db none none = none ∧
    getProperty db (some i) (some s) = db.properties.find? (fun p => p.id == i) ∧
    getProperty db (some i) none = db.properties.find? (fun p => p.id == i) ∧
    getProperty db none (some s) = db.properties.find? (fun p => p.slug == s) ∧
    availability db none none (some f) (some t) = (AvailabilityResult.notFound, db) ∧
    (getProperty db (some i) (some s) = none →
      availability db (some i) (some s) (some f) (some t) =
        (AvailabilityResult.notFound, db)) := by
  refine ⟨rfl, rfl, rfl, rfl, rfl, ?_⟩
  intro h
  unfold availability
  rw [h]

/-- Claim C8 witness: an unknown identifier and slug lead to the not-found
response with the store unchanged. -/
theorem getProperty_lookup_spec_witness :
    availability emptyDB (some 1) (some "nope") (some 19875) (some 19878) =
      (AvailabilityResult.notFound, emptyDB) :=
  (getProperty_lookup_spec emptyDB 1 "nope" 19875 19878).2.2.2.2.2 (by decide)

/-- Claim C9: when the property price is NULL or zero the quoted and charged
total is 0 and both handlers proceed normally — the quote answers ok and the
checkout creates the reservation — and a NULL currency defaults to EUR in
the quote and in the checkout response. -/
theorem zero_price_and_default_currency (db : DB) (qreq : QuoteReq) (creq : CheckoutReq)
    (ci co : Date) (e url : String) (prop : Property)
    (hci : qreq.checkin = some ci) (hco : qreq.checkout = some co)
    (hlt : toDate ci < toDate co)
    (hp : getProperty db qreq.property_id qreq.property_slug = some prop)
    (hprice : prop.price_per_night_cents = none ∨ prop.price_per_night_cents = some 0)
    (hce : creq.email = some e) (hcci : creq.checkin = some ci) (hcco : creq.checkout = some co)
    (hcp : getProperty db creq.property_id creq.property_slug = some prop)
    (hnc : db.reservations.any (conflictPred prop.id ci co) = false) :
    (∃ q, (quote db qreq).1 = QuoteResult.ok q ∧ q.total_cents = 0 ∧
      (prop.currency = none → q.currency = "EUR")) ∧
    (checkout db creq (StripeOutcome.ok url)).1 =
      CheckoutResult.created db.nextId url 0 (toUpperStr (toLowerStr (prop.currency.getD "EUR"))) ∧
    (prop.currency = none →
      (checkout db creq (StripeOutcome.ok url)).1 =
        CheckoutResult.created db.nextId url 0 "EUR") := by
  have hzero : prop.price_per_night_cents.getD 0 = 0 := by
    rcases hprice with h | h <;> rw [h] <;> rfl
  have hcheckout : (checkout db creq (StripeOutcome.ok url)).1 =
      CheckoutResult.created db.nextId url 0 (toUpperStr (toLowerStr (prop.currency.getD "EUR"))) := by
    unfold checkout
    rw [hce, hcci, hcco]
    dsimp only
    rw [if_neg (not_le.mpr hlt), hcp]
    dsimp only
    rw [if_neg (by simp [hnc])]
    dsimp only
    rw [hzero, mul_zero]
  refine ⟨?_, hcheckout, ?_⟩
  · unfold quote
    rw [hci, hco]
    dsimp only
    rw [if_neg (not_le.mpr hlt), hp]
    dsimp only
    refine ⟨_, rfl, ?_, ?_⟩
    · dsimp only
      rw [hzero, mul_zero]
    · intro hcur
      dsimp only
      rw [hcur]
      rfl
  · intro hcur
    rw [hcheckout, hcur]
    have h : toUpperStr (toLowerStr (Option.none.getD ("EUR" : String))) = "EUR" := by decide
    rw [h]

/-- Claim C9 witness: the zero-priced, currency-less property quotes a total
of 0 with currency EUR and checks out successfully for amount 0. -/
theorem zero_price_and_default_currency_witness :
    (∃ q, (quote freeDB freeQuoteReq).1 = QuoteResult.ok q ∧ q.total_cents = 0 ∧
      (freeHut.currency = none → q.currency = "EUR")) ∧
    (checkout freeDB freeCheckoutReq (StripeOutcome.ok "u")).1 =
      CheckoutResult.created freeDB.nextId "u" 0
        (toUpperStr (toLowerStr (freeHut.currency.getD "EUR"))) ∧
    (freeHut.currency = none →
      (checkout freeDB freeCheckoutReq (StripeOutcome.ok "u")).1 =
        CheckoutResult.created freeDB.nextId "u" 0 "EUR") :=
  zero_price_and_default_currency freeDB freeQuoteReq freeCheckoutReq 19875 19878
    "guest@example.com" "u" freeHut rfl rfl (by decide) (by decide) (Or.inr rfl)
    rfl rfl rfl (by decide) (by decide)

/-- Claim C10: a quote or checkout request with missing or invalid fields
(missing dates, checkout not after checkin, or — for checkout — a missing
email) that also names an unknown property is answered InvalidInput
(HTTP 400) and never NotFound: the field validation runs before the property
lookup. -/
theorem validation_precedes_lookup (db : DB) (qreq : QuoteReq) (creq : CheckoutReq)
    (st : StripeOutcome)
    (hq : qreq.checkin = none ∨ qreq.checkout = none ∨
        ∃ ci co, qreq.checkin = some ci ∧ qreq.checkout = some co ∧ toDate co ≤ toDate ci)
    (hc : creq.email = none ∨ creq.checkin = none ∨ creq.checkout = none ∨
        ∃ ci co, creq.checkin = some ci ∧ creq.checkout = some co ∧ toDate co ≤ toDate ci)
    (_hqp : getProperty db qreq.property_id qreq.property_slug = none)
    (_hcp : getProperty db creq.property_id creq.property_slug = none) :
    (∃ msg, (quote db qreq).1 = QuoteResult.invalidInput msg) ∧
    (quote db qreq).1 ≠ QuoteResult.notFound ∧
    (∃ msg, (checkout db creq st).1 = CheckoutResult.invalidInput msg) ∧
    (checkout db creq st).1 ≠ CheckoutResult.notFound := by
  have hquote : ∃ msg, (quote db qreq).1 = QuoteResult.invalidInput msg := by
    unfold quote
    rcases hq with h | h | ⟨ci, co, h1, h2, h3⟩
    · rw [h]
      cases hx : qreq.checkout <;> exact ⟨_, rfl⟩
    · rw [h]
      cases hx : qreq.checkin <;> exact ⟨_, rfl⟩
    · rw [h1, h2]
      dsimp only
      rw [if_pos h3]
      exact ⟨_, rfl⟩
  have hcheckout : ∃ msg, (checkout db creq st).1 = CheckoutResult.invalidInput msg := by
    unfold checkout
    rcases hc with h | h | h | ⟨ci, co, h1, h2, h3⟩
    · rw [h]
      exact ⟨_, rfl⟩
    · cases he : creq.email with
      | none => exact ⟨_, rfl⟩
      | some e =>
        rw [h]
        cases hx : creq.checkout <;> exact ⟨_, rfl⟩
    · cases he : creq.email with
      | none => exact ⟨_, rfl⟩
      | some e =>
        rw [h]
        cases hx : creq.checkin <;> exact ⟨_, rfl⟩
    · cases he : creq.email with
      | none => exact ⟨_, rfl⟩
      | some e =>
        rw [h1, h2]
        dsimp only
        rw [if_pos h3]
        exact ⟨_, rfl⟩
  obtain ⟨m1, hm1⟩ := hquote
  obtain ⟨m2, hm2⟩ := hcheckout
  refine ⟨⟨m1, hm1⟩, ?_, ⟨m2, hm2⟩, ?_⟩
  · rw [hm1]
    simp
  · rw [hm2]
    simp

/-- Claim C10 witness: requests naming the unknown slug "ghost" with a
missing checkin (quote) and with checkin = checkout (checkout) are answered
InvalidInput, not NotFound. -/
theorem validation_precedes_lookup_witness :
    (∃ msg, (quote emptyDB ghostQuoteReq).1 = QuoteResult.invalidInput msg) ∧
    (quote emptyDB ghostQuoteReq).1 ≠ QuoteResult.notFound ∧
    (∃ msg, (checkout emptyDB ghostCheckoutReq (StripeOutcome.ok "u")).1 =
      CheckoutResult.invalidInput msg) ∧
    (checkout emptyDB ghostCheckoutReq (StripeOutcome.ok "u")).1 ≠ CheckoutResult.notFound :=
  validation_precedes_lookup emptyDB ghostQuoteReq ghostCheckoutReq (StripeOutcome.ok "u")
    (Or.inl rfl) (Or.inr (Or.inr (Or.inr ⟨19879, 19879, rfl, rfl, by decide⟩)))
    (by decide) (by decide)

end VacancyBackend
